import Mathlib

/-!
Shallow embedding of the Trip-Service repository (an Express/SQLite ride-hailing
service) for checking its specification.

The embedding covers:
* `pingDriverForAcceptance` from `TripServiceHelper.js`;
* the four HTTP handlers of the main server file: trip creation
  (`POST /v1/trips`) with its sequential driver-negotiation loop, completion
  (`PUT /v1/trips/:trip_id/complete`) with the fare calculation and payment
  call, cancellation (`GET /v1/trips/:trip_id/cancel`), and the read endpoint.

External I/O (axios calls, SQLite callbacks) is modelled by passing each call's
outcome as an explicit argument: a sum type distinguishing a thrown error from
a delivered response. JavaScript numbers are modelled as rationals; SQLite rows
as a `Trip` structure (timestamps, which no property concerns, are omitted).
-/

namespace TripService

/-- The five trip statuses stored in the `status` column. -/
inductive Status
  | REQUESTED
  | ACCEPTED
  | COMPLETE
  | UNPAID
  | CANCELLED
deriving DecidableEq, Repr

/-- A JavaScript value as it can appear in a parsed JSON request or response
body (numbers as rationals; `nullv`/`undef` for `null` and a missing field). -/
inductive JsVal
  | bool (b : Bool)
  | str (s : String)
  | num (q : ℚ)
  | nullv
  | undef
deriving DecidableEq, Repr

/-- JavaScript truthiness test, negated: `!v` in the source. `false`, `0`,
the empty string, `null` and `undefined` are falsy. -/
def JsVal.falsy : JsVal → Bool
  | .bool b => !b
  | .str s => s.isEmpty
  | .num q => q == 0
  | .nullv => true
  | .undef => true

/-- Model of `parseFloat(distance)`: `none` stands for `NaN`. A numeric JSON
body parses to itself; non-numeric bodies (which no endpoint property
exercises past the truthiness validation) are modelled as `NaN`. -/
def parseFloatD : JsVal → Option ℚ
  | .num q => some q
  | _ => none

/-- A stored trip row (the `trips` table minus its two timestamp columns). -/
structure Trip where
  trip_id : String
  rider_id : String
  driver_id : Option String
  pickup_location : String
  drop_location : String
  status : Status
  fare : Option ℚ
  distance : Option ℚ
deriving DecidableEq, Repr

/- ## pingDriverForAcceptance (TripServiceHelper.js) -/

/-- The HTTP response a ping delivers: its status code and the `accepted`
field of its JSON body (`undef` when the body lacks the field, e.g. a
malformed response). -/
structure PingResponse where
  status : Nat
  accepted : JsVal
deriving DecidableEq, Repr

/-- Outcome of the axios POST inside `pingDriverForAcceptance`: either the
call threw (timeout, network error, or a non-2xx status, which axios rejects
by default) or a response was delivered. -/
inductive PingResult
  | error
  | response (r : PingResponse)
deriving DecidableEq, Repr

/-- `pingDriverForAcceptance`: returns
`response.status === 200 && response.data.accepted === true`, and `false`
from the catch block on any thrown error. -/
def pingDriverForAcceptance : PingResult → Bool
  | .error => false
  | .response r => r.status == 200 && r.accepted == .bool true

/-- Failure-class ping outcomes per the spec's list: a thrown error
(timeout, network error) or a response whose status is not 2xx. -/
def pingFailure : PingResult → Bool
  | .error => true
  | .response r => decide (r.status < 200 ∨ 300 ≤ r.status)

/- ## The driver-negotiation loop of POST /v1/trips -/

/-- One candidate from the driver directory's `drivers` array, together with
the boolean that `pingDriverForAcceptance` returns for it during this
negotiation (the ping's outcome is part of the environment). -/
structure Driver where
  driver_id : String
  accepts : Bool
deriving DecidableEq, Repr

/-- The `for (const driver of drivers)` loop: ping each candidate in order,
stop at the first acceptance. Returns the assigned driver id (or `none`) and
the list of driver ids pinged, in the order the pings happened. -/
def negotiate : List Driver → Option String × List String
  | [] => (none, [])
  | d :: rest =>
    if d.accepts then
      (some d.driver_id, [d.driver_id])
    else
      let r := negotiate rest
      (r.1, d.driver_id :: r.2)

/- ## POST /v1/trips -/

/-- Outcome of the `axios.get(driverServiceUrl)` call: a thrown error, or a
response carrying a status code and the `drivers` field of its body
(`none` when the field is missing or falsy). -/
inductive DirectoryResult
  | error
  | ok (status : Nat) (drivers : Option (List Driver))
deriving DecidableEq, Repr

/-- The freshly inserted row: `INSERT INTO trips ... VALUES (..., 'REQUESTED', ...)`. -/
def insertTrip (trip_id rider pickup drop : String) : Trip :=
  { trip_id := trip_id, rider_id := rider, driver_id := none,
    pickup_location := pickup, drop_location := drop,
    status := .REQUESTED, fare := none, distance := none }

/-- The update run when a driver accepted:
`UPDATE trips SET driver_id = ?, status='ACCEPTED' ...`. -/
def assignDriver (d : String) (t : Trip) : Trip :=
  { t with driver_id := some d, status := .ACCEPTED }

/-- Result of the create handler: the HTTP code, the `status` and `driver_id`
fields of the response body, and the row as it ends up stored (absent for the
two error outcomes, where no row survives the handler's happy path). -/
inductive CreateResult
  | validationError
  | insertError
  | created (code : Nat) (bodyStatus : Status) (bodyDriver : Option String) (stored : Trip)
deriving DecidableEq, Repr

/-- The `POST /v1/trips` handler. `rider`/`pickup`/`drop` are the request body
fields (`none` = absent), `insertOk` the outcome of the INSERT callback, `dir`
the outcome of the driver-directory fetch. -/
def createEndpoint (trip_id : String) (rider pickup drop : Option String)
    (insertOk : Bool) (dir : DirectoryResult) : CreateResult :=
  match rider, pickup, drop with
  | some r, some p, some dr =>
    if r.isEmpty || p.isEmpty || dr.isEmpty then
      .validationError
    else if !insertOk then
      .insertError
    else
      let t := insertTrip trip_id r p dr
      match dir with
      | .error => .created 201 .REQUESTED none t
      | .ok st drivers =>
        if st = 200 then
          match drivers with
          | some ds =>
            if ds.length > 0 then
              match (negotiate ds).1 with
              | some d => .created 201 .REQUESTED (some d) (assignDriver d t)
              | none => .created 201 .REQUESTED none t
            else
              .created 201 .REQUESTED none t
          | none => .created 201 .REQUESTED none t
        else
          .created 201 .REQUESTED none t
  | _, _, _ => .validationError

/- ## PUT /v1/trips/:trip_id/complete -/

/-- Fare calculation of the complete handler, `(x).toFixed(2)` followed by
`parseFloat`: round to the nearest multiple of 1/100, ties upward. -/
def toFixed2 (x : ℚ) : ℚ := (⌊x * 100 + 1 / 2⌋ : ℤ) / 100

/-- `const baseFare = 2.0`. -/
def baseFare : ℚ := 2

/-- `const perKmRate = 1.5`. -/
def perKmRate : ℚ := 3 / 2

/-- `const fare = parseFloat((baseFare + (distanceNum * perKmRate)).toFixed(2))`. -/
def fare (distanceNum : ℚ) : ℚ := toFixed2 (baseFare + distanceNum * perKmRate)

/-- Specification-side fare function, written from the spec's words:
`fare = round(baseFare + perKmRate × distance, 2 decimal places)`, with
`baseFare = 2.00`, `perKmRate = 1.50`. -/
def fare_spec (distance : ℚ) : ℚ := (round ((2 + (3 : ℚ) / 2 * distance) * 100) : ℤ) / 100

/-- Outcome of the `axios.post(paymentServiceUrl, ...)` call: a thrown error,
or a response with its status code and the `status` string of its body. -/
inductive PaymentResult
  | error
  | ok (status : Nat) (bodyStatus : String)
deriving DecidableEq, Repr

/-- `paymentSuccess` after the try/catch:
`response.status === 200 && response.data.status === 'SUCCESS'`, `false`
when the call threw. -/
def paymentSuccess : PaymentResult → Bool
  | .error => false
  | .ok st s => st == 200 && s == "SUCCESS"

/-- The update run by the complete handler:
`UPDATE trips SET status = ?, fare = ?, distance = ? ...` with
`status = paymentSuccess ? 'COMPLETE' : 'UNPAID'`. -/
def completeTrip (pSuccess : Bool) (f d : Option ℚ) (t : Trip) : Trip :=
  { t with status := if pSuccess then .COMPLETE else .UNPAID,
           fare := f, distance := d }

/-- Result of the complete handler: the HTTP code, the updated stored row and
the `payment_status` field of the response body. -/
inductive CompleteResult
  | validationError
  | notFound
  | completed (code : Nat) (stored : Trip) (paymentStatus : String)
deriving DecidableEq, Repr

/-- The `PUT /v1/trips/:trip_id/complete` handler. `store` is what
`SELECT * FROM trips WHERE trip_id = ?` finds, `distBody` the `distance` field
of the request body, `pay` the outcome of the payment call. -/
def completeEndpoint (store : Option Trip) (distBody : JsVal)
    (pay : PaymentResult) : CompleteResult :=
  if distBody.falsy then
    .validationError
  else
    match store with
    | none => .notFound
    | some t =>
      let distanceNum := parseFloatD distBody
      let fareVal := distanceNum.map fare
      let ps := paymentSuccess pay
      .completed 200 (completeTrip ps fareVal distanceNum t)
        (if ps then "SUCCESS" else "FAILED")

/- ## GET /v1/trips/:trip_id/cancel -/

/-- The update run by the cancel handler:
`UPDATE trips SET status = ? ...` with `'CANCELLED'`, unconditionally. -/
def cancelTrip (t : Trip) : Trip := { t with status := .CANCELLED }

/-- Result of the cancel handler. -/
inductive CancelResult
  | notFound
  | cancelled (code : Nat) (stored : Trip)
deriving DecidableEq, Repr

/-- The `GET /v1/trips/:trip_id/cancel` handler. -/
def cancelEndpoint (store : Option Trip) : CancelResult :=
  match store with
  | none => .notFound
  | some t => .cancelled 200 (cancelTrip t)

/- ## Reachability through the controller's commands -/

/-- Trips reachable through the mutating commands: a row stored by a
successful creation, followed by any sequence of complete and cancel
commands applied to it. -/
inductive Reachable : Trip → Prop
  | create (tid r p d : String) (dir : DirectoryResult) (code : Nat)
      (bs : Status) (bd : Option String) (stored : Trip) :
      createEndpoint tid (some r) (some p) (some d) true dir =
        .created code bs bd stored →
      Reachable stored
  | complete (t : Trip) (distBody : JsVal) (pay : PaymentResult) (code : Nat)
      (stored : Trip) (bp : String) :
      Reachable t →
      completeEndpoint (some t) distBody pay = .completed code stored bp →
      Reachable stored
  | cancel (t : Trip) (code : Nat) (stored : Trip) :
      Reachable t →
      cancelEndpoint (some t) = .cancelled code stored →
      Reachable stored

/-- Transition relation of the spec's state machine:
REQUESTED → ACCEPTED → COMPLETE | UNPAID, and REQUESTED/ACCEPTED → CANCELLED;
COMPLETE, UNPAID and CANCELLED are terminal. Written from the spec's words. -/
def specTransition : Status → Status → Bool
  | .REQUESTED, .ACCEPTED => true
  | .ACCEPTED, .COMPLETE => true
  | .ACCEPTED, .UNPAID => true
  | .REQUESTED, .CANCELLED => true
  | .ACCEPTED, .CANCELLED => true
  | _, _ => false

/-- A concrete trip as stored after a creation in which driver d1 accepted:
status ACCEPTED, driver_id d1. -/
def tripAccepted : Trip := assignDriver "d1" (insertTrip "t1" "r1" "A" "B")

/-- The trip tripAccepted after a completion with distance 10 and a
successful payment: status COMPLETE. -/
def tripCompleted : Trip :=
  completeTrip true (some (fare 10)) (some 10) tripAccepted

/-- The trip tripAccepted after a cancellation: status CANCELLED while
driver_id is still d1. -/
def tripCancelledKeepsDriver : Trip := cancelTrip tripAccepted

/-! ## Helper lemmas -/

lemma reachable_tripAccepted : Reachable tripAccepted :=
  Reachable.create "t1" "r1" "A" "B" (.ok 200 (some [⟨"d1", true⟩])) 201
    .REQUESTED (some "d1") tripAccepted (by decide)

lemma reachable_tripCompleted : Reachable tripCompleted :=
  Reachable.complete tripAccepted (.num 10) (.ok 200 "SUCCESS") 200
    tripCompleted "SUCCESS" reachable_tripAccepted (by
      simp [completeEndpoint, parseFloatD, paymentSuccess, tripCompleted,
        JsVal.falsy])

lemma negotiate_skip (pre : List Driver) (hpre : ∀ x ∈ pre, x.accepts = false) :
    ∀ rest : List Driver,
      negotiate (pre ++ rest) =
        ((negotiate rest).1, pre.map Driver.driver_id ++ (negotiate rest).2) := by
  induction pre with
  | nil => intro rest; simp
  | cons d pre ih =>
    intro rest
    have hd : d.accepts = false := hpre d (List.mem_cons_self d pre)
    have hpre' : ∀ x ∈ pre, x.accepts = false :=
      fun x hx => hpre x (List.mem_cons_of_mem d hx)
    simp [negotiate, hd, ih hpre' rest]

lemma negotiate_none (cands : List Driver) (h : ∀ x ∈ cands, x.accepts = false) :
    negotiate cands = (none, cands.map Driver.driver_id) := by
  induction cands with
  | nil => rfl
  | cons d rest ih =>
    have hd : d.accepts = false := h d (List.mem_cons_self d rest)
    simp [negotiate, hd, ih (fun x hx => h x (List.mem_cons_of_mem d hx))]

lemma completeEndpoint_stored (t stored : Trip) (distBody : JsVal)
    (pay : PaymentResult) (code : Nat) (bp : String)
    (h : completeEndpoint (some t) distBody pay = .completed code stored bp) :
    stored = completeTrip (paymentSuccess pay) ((parseFloatD distBody).map fare)
      (parseFloatD distBody) t := by
  unfold completeEndpoint at h
  split at h
  · simp at h
  · simp only [CompleteResult.completed.injEq] at h
    exact h.2.1.symm

lemma cancelEndpoint_stored (t stored : Trip) (code : Nat)
    (h : cancelEndpoint (some t) = .cancelled code stored) :
    stored = cancelTrip t := by
  simp only [cancelEndpoint, CancelResult.cancelled.injEq] at h
  exact h.2.symm

lemma createEndpoint_stored (tid : String) (rider pickup drop : Option String)
    (insertOk : Bool) (dir : DirectoryResult) (code : Nat) (bs : Status)
    (bd : Option String) (stored : Trip)
    (h : createEndpoint tid rider pickup drop insertOk dir =
      .created code bs bd stored) :
    (∃ r p d, stored = insertTrip tid r p d) ∨
    (∃ r p d dd, stored = assignDriver dd (insertTrip tid r p d)) := by
  rcases rider with _ | r
  · simp [createEndpoint] at h
  rcases pickup with _ | p
  · simp [createEndpoint] at h
  rcases drop with _ | dr
  · simp [createEndpoint] at h
  simp only [createEndpoint] at h
  split at h
  · simp at h
  split at h
  · simp at h
  split at h
  · simp only [CreateResult.created.injEq] at h
    exact Or.inl ⟨r, p, dr, h.2.2.2.symm⟩
  · split at h
    · split at h
      · split at h
        · split at h
          · simp only [CreateResult.created.injEq] at h
            exact Or.inr ⟨r, p, dr, _, h.2.2.2.symm⟩
          · simp only [CreateResult.created.injEq] at h
            exact Or.inl ⟨r, p, dr, h.2.2.2.symm⟩
        · simp only [CreateResult.created.injEq] at h
          exact Or.inl ⟨r, p, dr, h.2.2.2.symm⟩
      · simp only [CreateResult.created.injEq] at h
        exact Or.inl ⟨r, p, dr, h.2.2.2.symm⟩
    · simp only [CreateResult.created.injEq] at h
      exact Or.inl ⟨r, p, dr, h.2.2.2.symm⟩

/-! ## Claims -/

/-- C1: during Create, if candidate k (1-indexed) is the first whose ping
reports acceptance, exactly k pings occur, in candidate order, and the
assigned driver is candidate k's id; if no candidate accepts (including the
empty list), exactly N pings occur and no driver is assigned. Candidate k
being first to accept is phrased as the list splitting into `pre ++ c :: post`
with every member of `pre` declining and `c` accepting, so k = pre.length + 1. -/
theorem C1_first_acceptor_wins (pre : List Driver) (c : Driver) (post : List Driver)
    (cands : List Driver)
    (hpre : ∀ x ∈ pre, x.accepts = false) (hc : c.accepts = true)
    (hnone : ∀ x ∈ cands, x.accepts = false) :
    negotiate (pre ++ c :: post) =
      (some c.driver_id, (pre ++ [c]).map Driver.driver_id) ∧
    (negotiate (pre ++ c :: post)).2.length = pre.length + 1 ∧
    negotiate cands = (none, cands.map Driver.driver_id) ∧
    (negotiate cands).2.length = cands.length := by
  have h1 := negotiate_skip pre hpre (c :: post)
  have h2 : negotiate (c :: post) = (some c.driver_id, [c.driver_id]) := by
    simp [negotiate, hc]
  have h3 := negotiate_none cands hnone
  refine ⟨?_, ?_, h3, ?_⟩ <;> simp [h1, h2, h3]

/-- Witness for C1 at a concrete input: second of three candidates accepts,
so two pings in order and d2 assigned; two declining candidates give two
pings and no assignment. -/
theorem C1_witness :
    negotiate [⟨"d1", false⟩, ⟨"d2", true⟩, ⟨"d3", false⟩] =
      (some "d2", ["d1", "d2"]) ∧
    negotiate [⟨"e1", false⟩, ⟨"e2", false⟩] = (none, ["e1", "e2"]) := by
  have h := C1_first_acceptor_wins [⟨"d1", false⟩] ⟨"d2", true⟩ [⟨"d3", false⟩]
    [⟨"e1", false⟩, ⟨"e2", false⟩] (by decide) rfl (by decide)
  exact ⟨by simpa using h.1, by simpa using h.2.2.1⟩

/-- C6: pingDriverForAcceptance never propagates an error: a thrown axios
error (timeout, network failure, non-2xx status — axios rejects those by
default) returns `false` from the catch block, a hypothetical delivered
non-2xx response returns `false`, and a malformed response body whose
`accepted` field is absent returns `false`. -/
theorem C6_ping_never_throws (input : PingResult) (h : pingFailure input = true)
    (r : PingResponse) (hr : r.accepted = .undef) :
    pingDriverForAcceptance input = false ∧
    pingDriverForAcceptance (.response r) = false := by
  constructor
  · cases input with
    | error => rfl
    | response resp =>
      simp only [pingFailure, decide_eq_true_eq] at h
      have hne : resp.status ≠ 200 := by omega
      simp [pingDriverForAcceptance, hne]
  · simp [pingDriverForAcceptance, hr]

/-- Witness for C6 at concrete inputs: a thrown error and a response with an
absent `accepted` field both yield false. -/
theorem C6_witness :
    pingDriverForAcceptance PingResult.error = false ∧
    pingDriverForAcceptance (.response ⟨200, .undef⟩) = false :=
  C6_ping_never_throws PingResult.error (by decide) ⟨200, .undef⟩ rfl

/-- C10: pingDriverForAcceptance reports acceptance exactly when the response
status is 200 and the body's `accepted` field is strictly the boolean `true`;
a 2xx status other than 200, or a truthy non-boolean `accepted` value (a
string or a number), is not accepted. -/
theorem C10_strict_acceptance_check (input : PingResult) :
    (pingDriverForAcceptance input = true ↔
      ∃ r : PingResponse, input = .response r ∧ r.status = 200 ∧
        r.accepted = .bool true) ∧
    pingDriverForAcceptance (.response ⟨201, .bool true⟩) = false ∧
    pingDriverForAcceptance (.response ⟨204, .bool true⟩) = false ∧
    pingDriverForAcceptance (.response ⟨200, .str "true"⟩) = false ∧
    pingDriverForAcceptance (.response ⟨200, .num 1⟩) = false := by
  refine ⟨?_, rfl, rfl, rfl, rfl⟩
  cases input with
  | error => simp [pingDriverForAcceptance]
  | response r =>
    simp only [pingDriverForAcceptance, Bool.and_eq_true, beq_iff_eq]
    constructor
    · rintro ⟨h1, h2⟩; exact ⟨r, rfl, h1, h2⟩
    · rintro ⟨r', heq, h1, h2⟩
      cases heq
      exact ⟨h1, h2⟩

/-- C8: the fare computed during Complete equals the spec's
round(2.00 + 1.50 × distance, 2 decimal places) for every distance;
fare(10) = 17, fare(0) = 2, and the result is always an exact multiple of
1/100 (rounded to 2 decimals). -/
theorem C8_fare_formula (d : ℚ) :
    fare d = fare_spec d ∧
    fare 10 = 17 ∧
    fare 0 = 2 ∧
    ∃ n : ℤ, fare d * 100 = (n : ℚ) := by
  refine ⟨?_, ?_, ?_, ?_⟩
  · unfold fare fare_spec toFixed2 baseFare perKmRate
    rw [round_eq,
      show (2 + d * (3 / 2 : ℚ)) * 100 + 1 / 2 =
        (2 + (3 : ℚ) / 2 * d) * 100 + 1 / 2 by ring]
  · unfold fare toFixed2 baseFare perKmRate
    norm_num
  · unfold fare toFixed2 baseFare perKmRate
    norm_num
  · refine ⟨⌊(baseFare + d * perKmRate) * 100 + 1 / 2⌋, ?_⟩
    unfold fare toFixed2
    field_simp

/-- C2: when a driver accepts during Create, the stored row is updated to
status ACCEPTED with the driver's id, while the 201 response body reports
status REQUESTED together with that driver_id: the response and the
persisted status disagree in this outcome. -/
theorem C2_response_disagrees_with_store (tid r p dr : String)
    (hr : r.isEmpty = false) (hp : p.isEmpty = false) (hd : dr.isEmpty = false)
    (ds : List Driver) (d : String) (hneg : (negotiate ds).1 = some d) :
    createEndpoint tid (some r) (some p) (some dr) true (.ok 200 (some ds)) =
      .created 201 .REQUESTED (some d) (assignDriver d (insertTrip tid r p dr)) ∧
    (assignDriver d (insertTrip tid r p dr)).status = .ACCEPTED ∧
    (assignDriver d (insertTrip tid r p dr)).driver_id = some d := by
  have hds : ds ≠ [] := by
    intro hnil
    subst hnil
    simp [negotiate] at hneg
  have hlen : ds.length > 0 := List.length_pos.mpr hds
  refine ⟨?_, rfl, rfl⟩
  simp [createEndpoint, hr, hp, hd, hlen, hneg]

/-- Witness for C2 at a concrete input: of two candidates the second accepts;
the stored row is ACCEPTED with driver d2 while the body says REQUESTED. -/
theorem C2_witness :
    createEndpoint "t1" (some "r1") (some "A") (some "B") true
        (.ok 200 (some [⟨"d1", false⟩, ⟨"d2", true⟩])) =
      .created 201 .REQUESTED (some "d2")
        (assignDriver "d2" (insertTrip "t1" "r1" "A" "B")) ∧
    (assignDriver "d2" (insertTrip "t1" "r1" "A" "B")).status = .ACCEPTED ∧
    (assignDriver "d2" (insertTrip "t1" "r1" "A" "B")).driver_id = some "d2" :=
  C2_response_disagrees_with_store "t1" "r1" "A" "B" rfl rfl rfl
    [⟨"d1", false⟩, ⟨"d2", true⟩] "d2" rfl

/-- C5: for an existing trip and a non-falsy distance, Complete stores status
COMPLETE exactly when the payment call succeeds (status 200 and body status
SUCCESS) and UNPAID exactly when it fails or throws; the same fare and
distance are persisted in both outcomes, and the handler returns 200. -/
theorem C5_complete_payment_outcomes (t : Trip) (q : ℚ) (pay : PaymentResult)
    (hq : (JsVal.num q).falsy = false) :
    completeEndpoint (some t) (.num q) pay =
      .completed 200 (completeTrip (paymentSuccess pay) (some (fare q)) (some q) t)
        (if paymentSuccess pay then "SUCCESS" else "FAILED") ∧
    ((completeTrip (paymentSuccess pay) (some (fare q)) (some q) t).status =
        .COMPLETE ↔ paymentSuccess pay = true) ∧
    ((completeTrip (paymentSuccess pay) (some (fare q)) (some q) t).status =
        .UNPAID ↔ paymentSuccess pay = false) ∧
    paymentSuccess .error = false ∧
    (completeTrip (paymentSuccess pay) (some (fare q)) (some q) t).fare =
      some (fare q) ∧
    (completeTrip (paymentSuccess pay) (some (fare q)) (some q) t).distance =
      some q := by
  refine ⟨?_, ?_, ?_, rfl, rfl, rfl⟩
  · simp [completeEndpoint, hq, parseFloatD]
  · cases hps : paymentSuccess pay <;> simp [completeTrip, hps]
  · cases hps : paymentSuccess pay <;> simp [completeTrip, hps]

/-- Witness for C5 at a concrete input: completing a requested trip with
distance 10 and a successful payment stores COMPLETE with fare and distance. -/
theorem C5_witness :
    completeEndpoint (some (insertTrip "t1" "r1" "A" "B")) (.num 10)
        (.ok 200 "SUCCESS") =
      .completed 200
        (completeTrip (paymentSuccess (.ok 200 "SUCCESS")) (some (fare 10))
          (some 10) (insertTrip "t1" "r1" "A" "B"))
        (if paymentSuccess (.ok 200 "SUCCESS") then "SUCCESS" else "FAILED") :=
  (C5_complete_payment_outcomes (insertTrip "t1" "r1" "A" "B") 10
    (.ok 200 "SUCCESS") (by decide)).1

/-- C7: for a valid Create input whose insert succeeded, the handler answers
201 with body status REQUESTED for every directory outcome, and in
particular when the directory call throws the stored trip stays REQUESTED
with no driver: creation never fails due to downstream unavailability. -/
theorem C7_create_never_fails_downstream (tid r p dr : String)
    (hr : r.isEmpty = false) (hp : p.isEmpty = false) (hd : dr.isEmpty = false)
    (dir : DirectoryResult) :
    (∃ bd stored, createEndpoint tid (some r) (some p) (some dr) true dir =
        .created 201 .REQUESTED bd stored) ∧
    createEndpoint tid (some r) (some p) (some dr) true .error =
      .created 201 .REQUESTED none (insertTrip tid r p dr) ∧
    (insertTrip tid r p dr).status = .REQUESTED := by
  refine ⟨?_, by simp [createEndpoint, hr, hp, hd], rfl⟩
  cases dir with
  | error => exact ⟨none, insertTrip tid r p dr, by simp [createEndpoint, hr, hp, hd]⟩
  | ok st drivers =>
    by_cases hst : st = 200
    · subst hst
      cases drivers with
      | none => exact ⟨none, insertTrip tid r p dr, by simp [createEndpoint, hr, hp, hd]⟩
      | some ds =>
        by_cases hlen : ds.length > 0
        · cases hneg : (negotiate ds).1 with
          | none =>
            exact ⟨none, insertTrip tid r p dr,
              by simp [createEndpoint, hr, hp, hd, hlen, hneg]⟩
          | some d =>
            exact ⟨some d, assignDriver d (insertTrip tid r p dr),
              by simp [createEndpoint, hr, hp, hd, hlen, hneg]⟩
        · exact ⟨none, insertTrip tid r p dr,
            by simp [createEndpoint, hr, hp, hd, hlen]⟩
    · exact ⟨none, insertTrip tid r p dr,
        by simp [createEndpoint, hr, hp, hd, hst]⟩

/-- Witness for C7 at a concrete input: directory answering 500 with no
drivers field, and the thrown-error case. -/
theorem C7_witness :
    (∃ bd stored, createEndpoint "t1" (some "r1") (some "A") (some "B") true
        (.ok 500 none) = .created 201 .REQUESTED bd stored) ∧
    createEndpoint "t1" (some "r1") (some "A") (some "B") true .error =
      .created 201 .REQUESTED none (insertTrip "t1" "r1" "A" "B") ∧
    (insertTrip "t1" "r1" "A" "B").status = .REQUESTED :=
  C7_create_never_fails_downstream "t1" "r1" "A" "B" rfl rfl rfl (.ok 500 none)

/-- C9: Complete rejects any JavaScript-falsy distance — in particular the
numeric value 0 and the empty string — with a 400 validation error before the
trip is read (the result is the same even when no trip exists, where a 404
would otherwise be returned), so a zero-distance completion is unreachable. -/
theorem C9_falsy_distance_rejected (store : Option Trip) (pay : PaymentResult)
    (v : JsVal) (hv : v.falsy = true) :
    completeEndpoint store v pay = .validationError ∧
    completeEndpoint store (.num 0) pay = .validationError ∧
    completeEndpoint store (.str "") pay = .validationError ∧
    completeEndpoint none (.num 0) pay = .validationError := by
  have hstr : (JsVal.str "").falsy = true := rfl
  have hnum : (JsVal.num 0).falsy = true := rfl
  exact ⟨by simp [completeEndpoint, hv], by simp [completeEndpoint, hnum],
    by simp [completeEndpoint, hstr], by simp [completeEndpoint, hnum]⟩

/-- Witness for C9 at a concrete input: a null distance on an absent trip is
rejected as a validation error. -/
theorem C9_witness :
    completeEndpoint none JsVal.nullv PaymentResult.error = .validationError ∧
    completeEndpoint none (.num 0) PaymentResult.error = .validationError ∧
    completeEndpoint none (.str "") PaymentResult.error = .validationError ∧
    completeEndpoint none (.num 0) PaymentResult.error = .validationError :=
  C9_falsy_distance_rejected none PaymentResult.error JsVal.nullv rfl

/-- C3 (defect exhibit): the trip tripCompleted is reachable and has the
terminal status COMPLETE, yet the cancel command moves it to CANCELLED — a
transition the spec's state machine forbids — so a command does move a trip
out of a terminal state. -/
theorem C3_cancel_exits_terminal_state :
    Reachable tripCompleted ∧
    tripCompleted.status = .COMPLETE ∧
    cancelEndpoint (some tripCompleted) =
      .cancelled 200 (cancelTrip tripCompleted) ∧
    (cancelTrip tripCompleted).status = .CANCELLED ∧
    Reachable (cancelTrip tripCompleted) ∧
    specTransition .COMPLETE .CANCELLED = false :=
  ⟨reachable_tripCompleted, rfl, rfl, rfl,
    Reachable.cancel tripCompleted 200 (cancelTrip tripCompleted)
      reachable_tripCompleted rfl, rfl⟩

/-- C4 counterexample: cancelling the accepted trip tripAccepted yields a
reachable trip whose status is CANCELLED while its driver_id is still d1, so
driver_id non-null does not imply status ACCEPTED/COMPLETE/UNPAID, and this
trip is not the claim's REQUESTED-with-null-driver exception either. -/
theorem C4_counterexample :
    Reachable tripCancelledKeepsDriver ∧
    tripCancelledKeepsDriver.status = .CANCELLED ∧
    tripCancelledKeepsDriver.driver_id = some "d1" ∧
    ¬((tripCancelledKeepsDriver.driver_id ≠ none) ↔
        (tripCancelledKeepsDriver.status = .ACCEPTED ∨
         tripCancelledKeepsDriver.status = .COMPLETE ∨
         tripCancelledKeepsDriver.status = .UNPAID)) ∧
    ¬(tripCancelledKeepsDriver.status = .REQUESTED ∧
        tripCancelledKeepsDriver.driver_id = none) :=
  ⟨Reachable.cancel tripAccepted 200 tripCancelledKeepsDriver
      reachable_tripAccepted rfl,
    rfl, rfl, by decide, by decide⟩

/-- C4 (amended): driver_id is written only at creation — the complete and
cancel updates both preserve it — and every reachable trip satisfies: status
ACCEPTED implies driver_id non-null, and status REQUESTED implies driver_id
null; a COMPLETE, UNPAID or CANCELLED trip keeps whatever driver_id (possibly
null) creation left behind. -/
theorem C4_driver_id_set_only_at_creation (t : Trip) (h : Reachable t) :
    ((t.status = .ACCEPTED → t.driver_id ≠ none) ∧
     (t.status = .REQUESTED → t.driver_id = none)) ∧
    (∀ distBody pay code stored bp,
      completeEndpoint (some t) distBody pay = .completed code stored bp →
      stored.driver_id = t.driver_id) ∧
    (∀ code stored, cancelEndpoint (some t) = .cancelled code stored →
      stored.driver_id = t.driver_id) := by
  refine ⟨?_, ?_, ?_⟩
  · induction h with
    | create tid r p d dir code bs bd stored hc =>
      rcases createEndpoint_stored tid _ _ _ _ _ _ _ _ _ hc with
        ⟨r', p', d', hs⟩ | ⟨r', p', d', dd, hs⟩
      · subst hs
        exact ⟨fun hst => by simp [insertTrip] at hst, fun _ => rfl⟩
      · subst hs
        exact ⟨fun _ => by simp [assignDriver],
          fun hst => by simp [assignDriver, insertTrip] at hst⟩
    | complete t' distBody pay code stored bp hr hc ih =>
      rw [completeEndpoint_stored t' stored distBody pay code bp hc]
      cases hps : paymentSuccess pay <;> simp [completeTrip, hps]
    | cancel t' code stored hr hc ih =>
      rw [cancelEndpoint_stored t' stored code hc]
      simp [cancelTrip]
  · intro distBody pay code stored bp hc
    rw [completeEndpoint_stored t stored distBody pay code bp hc]
    rfl
  · intro code stored hc
    rw [cancelEndpoint_stored t stored code hc]
    rfl

/-- Witness for C4 (amended) at a concrete input: the trip stored by a
creation whose directory call threw. -/
theorem C4_witness :
    (((insertTrip "t1" "r1" "A" "B").status = .ACCEPTED →
        (insertTrip "t1" "r1" "A" "B").driver_id ≠ none) ∧
     ((insertTrip "t1" "r1" "A" "B").status = .REQUESTED →
        (insertTrip "t1" "r1" "A" "B").driver_id = none)) ∧
    (∀ distBody pay code stored bp,
      completeEndpoint (some (insertTrip "t1" "r1" "A" "B")) distBody pay =
        .completed code stored bp →
      stored.driver_id = (insertTrip "t1" "r1" "A" "B").driver_id) ∧
    (∀ code stored,
      cancelEndpoint (some (insertTrip "t1" "r1" "A" "B")) =
        .cancelled code stored →
      stored.driver_id = (insertTrip "t1" "r1" "A" "B").driver_id) :=
  C4_driver_id_set_only_at_creation (insertTrip "t1" "r1" "A" "B")
    (Reachable.create "t1" "r1" "A" "B" .error 201 .REQUESTED none
      (insertTrip "t1" "r1" "A" "B") rfl)

end TripService
